import Mathlib

/-!
Shallow embedding of the RFM segmentation and campaign-simulation pipeline
of this repository (`src/analysis.py` and `src/analytics_engine.py`).

Conventions of the embedding:

* an `invoice_date` is a day number (`Nat`); `pd.Timedelta(days=1)` is `+ 1`,
  and `(a - b).days` on two day numbers is integer subtraction;
* monetary amounts are exact rationals (`ℚ`) standing for the float values;
* pandas `groupby` (default `sort=True`) is modelled as: sorted distinct
  keys, each key aggregated over exactly the rows that carry it;
* a Python exception escaping a pipeline function is `Except.error`; an
  error dict returned to the caller is a dedicated result constructor.
-/

/-- TransactionRecord: one input row. Only the four fields the segmentation
core reads are modelled; `category`, `payment_method` and `shopping_mall`
are never touched by the functions embedded here. -/
structure TransactionRecord where
  customer_id : Nat
  invoice_no : Nat
  invoice_date : Nat
  net_sales : ℚ
  deriving DecidableEq

/-- Insert a number into a sorted list, keeping it sorted ascending. -/
def insertNat (x : Nat) : List Nat → List Nat
  | [] => [x]
  | y :: ys => if x ≤ y then x :: y :: ys else y :: insertNat x ys

/-- Ascending insertion sort on `Nat`, modelling the sorted group keys that
pandas `groupby(sort=True)` produces. -/
def sortNat : List Nat → List Nat
  | [] => []
  | x :: xs => insertNat x (sortNat xs)

/-- Sorted distinct customer ids of a transaction list: the index of the
`df.groupby (customer_id)` result. -/
def customerIds (txs : List TransactionRecord) : List Nat :=
  sortNat (txs.map (fun t => t.customer_id)).dedup

/-- Rows of a given customer, in input order: the group selected by one
`groupby` key. -/
def txsOf (txs : List TransactionRecord) (c : Nat) : List TransactionRecord :=
  txs.filter (fun t => t.customer_id = c)

/-- Maximum of `invoice_date` over a row list (`df.invoice_date.max()`);
`0` on an empty list, where the Python value `NaT` is never consumed. -/
def maxInvoiceDate (txs : List TransactionRecord) : Nat :=
  txs.foldl (fun m t => max m t.invoice_date) 0

/-- Reference date of a run: `today = df.invoice_date.max() + 1 day`
(line 55 of `analysis.py`, line 27 of `analytics_engine.py`). -/
def referenceDate (txs : List TransactionRecord) : Nat :=
  maxInvoiceDate txs + 1

/-- CustomerRFM row: output of the RFM aggregation. -/
structure RfmRow where
  customer_id : Nat
  recency : Int
  frequency : Nat
  monetary : ℚ
  deriving DecidableEq

/-- Aggregation of one `groupby` group: recency `(today - date.max()).days`,
frequency `invoice_no nunique`, monetary `net_sales sum`. -/
def rfmRowOf (txs : List TransactionRecord) (today : Nat) (c : Nat) : RfmRow :=
  let g := txsOf txs c
  { customer_id := c
    recency := (today : Int) - (maxInvoiceDate g : Int)
    frequency := ((g.map (fun t => t.invoice_no)).dedup).length
    monetary := (g.map (fun t => t.net_sales)).sum }

/-- The RFM aggregation shared verbatim by `analysis.py` lines 55-61 and
`AnalyticsEngine._calculate_rfm` (`analytics_engine.py` lines 25-38). -/
def calculate_rfm (txs : List TransactionRecord) : List RfmRow :=
  let today := referenceDate txs
  (customerIds txs).map (rfmRowOf txs today)

/-- CustomerRFM row after the `cluster` column is added (line 68 of
`analysis.py`; `clustered_data` in the engine). -/
structure ClusteredRow where
  customer_id : Nat
  recency : Int
  frequency : Nat
  monetary : ℚ
  cluster : Nat
  deriving DecidableEq

/-- Row of the final segmented table: `segment` is `none` where the Python
`Series.map` leaves `NaN` (cluster id absent from the segment map). -/
structure SegRow where
  customer_id : Nat
  recency : Int
  frequency : Nat
  monetary : ℚ
  cluster : Nat
  segment : Option String
  deriving DecidableEq

/-- CampaignProjection: the dict built by `run_campaign_simulation` in
`analysis.py` lines 123-129. `net_profit` is the intermediate of line 120;
the returned dict itself omits it, it is recorded here because the spec's
data model lists it. -/
structure CampaignProjection where
  target_segment : String
  targeted_customers : Nat
  projected_revenue : ℚ
  campaign_cost : ℚ
  net_profit : ℚ
  projected_roi_percent : ℚ
  deriving DecidableEq

/-- Result of `run_campaign_simulation`: either the projection dict or the
structured error dict of line 107 (`segmentNotFound`), which is returned,
not raised. -/
inductive CampaignResult where
  | ok (p : CampaignProjection)
  | segmentNotFound (target : String)
  deriving DecidableEq

/-- Campaign simulation of `analysis.py` lines 102-129: filter the rfm table
to the target segment, return the error dict when empty, otherwise project
revenue, cost, profit and ROI with `roi = net_profit / campaign_cost * 100`
when the cost is positive, else `0`. -/
def run_campaign_simulation (rfm_df : List SegRow) (target_segment : String)
    (discount_pct : ℚ) : CampaignResult :=
  let target_customers := rfm_df.filter (fun r => r.segment = some target_segment)
  if target_customers.isEmpty then
    .segmentNotFound target_segment
  else
    let customer_count : ℚ := target_customers.length
    let avg_spend := (target_customers.map (fun r => r.monetary)).sum / customer_count
    let uplift_factor : ℚ := 23 / 20
    let projected_revenue := customer_count * avg_spend * uplift_factor
    let campaign_cost := projected_revenue * discount_pct
    let net_profit := projected_revenue - campaign_cost
    let roi := if 0 < campaign_cost then net_profit / campaign_cost * 100 else 0
    .ok { target_segment := target_segment
          targeted_customers := target_customers.length
          projected_revenue := projected_revenue
          campaign_cost := campaign_cost
          net_profit := net_profit
          projected_roi_percent := roi }

/-- Projection dict of `AnalyticsEngine.run_campaign_simulation`
(`analytics_engine.py` lines 107-113). The code formats revenue, cost and
ROI as display strings; the numeric values behind those strings are kept,
with `projected_roi_percent = projected_roi * 100` as printed. -/
structure EngineCampaignProjection where
  target_cluster : Nat
  customer_count : Nat
  projected_revenue : ℚ
  campaign_cost : ℚ
  projected_roi_percent : ℚ
  deriving DecidableEq

/-- Result of the engine campaign simulation: projection dict or the
structured error dict of `analytics_engine.py` line 94. -/
inductive EngineCampaignResult where
  | ok (p : EngineCampaignProjection)
  | clusterNotFound
  deriving DecidableEq

/-- Campaign simulation of `analytics_engine.py` lines 89-113. Identical to
the `analysis.py` variant except that the target is a cluster id and the
ROI is `(net_profit - campaign_cost) / campaign_cost` (line 105). -/
def engine_run_campaign_simulation (rows : List ClusteredRow)
    (target_cluster : Nat) (discount : ℚ) : EngineCampaignResult :=
  let target_customers := rows.filter (fun r => r.cluster = target_cluster)
  if target_customers.isEmpty then
    .clusterNotFound
  else
    let customer_count : ℚ := target_customers.length
    let avg_spend := (target_customers.map (fun r => r.monetary)).sum / customer_count
    let uplift_factor : ℚ := 23 / 20
    let projected_revenue := avg_spend * customer_count * uplift_factor
    let campaign_cost := projected_revenue * discount
    let net_profit := projected_revenue - campaign_cost
    let projected_roi := if 0 < campaign_cost then (net_profit - campaign_cost) / campaign_cost else 0
    .ok { target_cluster := target_cluster
          customer_count := target_customers.length
          projected_revenue := projected_revenue
          campaign_cost := campaign_cost
          projected_roi_percent := projected_roi * 100 }

/-- Ordered label list of `analysis.py` line 73. -/
def segmentLabels : List String :=
  ["Champions", "Loyal", "At Risk", "Needs Attention"]

/-- Segment map of `analysis.py` line 73:
`{ordered[0]: Champions, ordered[1]: Loyal, ordered[2]: At Risk,
ordered[3]: Needs Attention}`. `none` models the `IndexError` raised when
fewer than four cluster ids are available; for longer lists the entries
past index 3 are silently ignored, exactly as in the Python dict literal. -/
def buildSegmentMap (ordered : List Nat) : Option (List (Nat × String)) :=
  match ordered[0]?, ordered[1]?, ordered[2]?, ordered[3]? with
  | some a, some b, some c, some d =>
      some [(a, "Champions"), (b, "Loyal"), (c, "At Risk"), (d, "Needs Attention")]
  | _, _, _, _ => none

/-- Lookup in the segment map, as `Series.map` does per cluster value:
`none` is pandas `NaN` for an unmapped cluster id. -/
def lookupSeg (m : List (Nat × String)) (j : Nat) : Option String :=
  (m.find? (fun e => e.1 = j)).map (fun e => e.2)

/-- Scaled feature point: one standardized (recency, frequency, monetary)
triple. -/
abbrev Point : Type := ℚ × ℚ × ℚ

/-- Executable rational surrogate for `np.log1p` (line 63 of `analysis.py`,
line 49 of `analytics_engine.py`). The real `log(1 + x)` is transcendental
and has no exact rational embedding; the (1,1) Padé approximant
`2x / (2 + x)`, strictly increasing on the nonnegative inputs produced by
the RFM stage, stands in for it. No theorem below depends on the values of
this function, only on it being a fixed total function. -/
def log1p (x : ℚ) : ℚ := 2 * x / (2 + x)

/-- Executable rational surrogate for the square root taken by
`StandardScaler` when it turns a variance into a scale: the floor square
root of `num * den` over `den` approximates `sqrt (num / den)`. No theorem
below depends on its values. -/
def sqrtQ (q : ℚ) : ℚ :=
  if q ≤ 0 then 0 else (Nat.sqrt (q.num.toNat * q.den) : ℚ) / (q.den : ℚ)

/-- Population mean of a rational list (`0` on the empty list). -/
def meanQ (xs : List ℚ) : ℚ := xs.sum / (xs.length : ℚ)

/-- Population variance of a rational list, as `StandardScaler` computes it
(`ddof = 0`). -/
def varQ (xs : List ℚ) : ℚ :=
  meanQ (xs.map (fun x => (x - meanQ xs) ^ 2))

/-- Per-dimension scale of `StandardScaler`: the standard deviation, with a
zero variance replaced by `1` (scikit-learn's zero-variance guard; the
spec's "scaled value is 0" rule follows because every value then equals the
mean). -/
def scaleOf (xs : List ℚ) : ℚ :=
  if varQ xs = 0 then 1 else sqrtQ (varQ xs)

/-- StandardScaler.fit_transform on the three log-transformed RFM columns
(line 64-65 of `analysis.py`, lines 51-52 of `analytics_engine.py`):
z-score each dimension independently with population mean and scale. -/
def standardize (rows : List (ℚ × ℚ × ℚ)) : List Point :=
  let rs := rows.map (fun v => v.1)
  let fs := rows.map (fun v => v.2.1)
  let ms := rows.map (fun v => v.2.2)
  rows.map (fun v =>
    ((v.1 - meanQ rs) / scaleOf rs,
     (v.2.1 - meanQ fs) / scaleOf fs,
     (v.2.2 - meanQ ms) / scaleOf ms))

/-- Log-transform then scale an RFM table: `rfm_log = np.log1p(rfm)` and
`rfm_scaled = scaler.fit_transform(rfm_log)`. -/
def scaledPoints (rfm : List RfmRow) : List Point :=
  standardize (rfm.map (fun r =>
    (log1p (r.recency : ℚ), log1p (r.frequency : ℚ), log1p r.monetary)))

/-- Squared Euclidean distance between two scaled points. Assignment and
inertia only ever compare squared distances, so this stays exact in `ℚ`. -/
def sqDist (p q : Point) : ℚ :=
  (p.1 - q.1) ^ 2 + (p.2.1 - q.2.1) ^ 2 + (p.2.2 - q.2.2) ^ 2

/-- Modelled from the spec: the body of `sklearn.cluster.KMeans` is external
library code, not part of this repository; §4.3 of the spec describes it.
This linear congruential step is the deterministic pseudo-random stream
that `random_state=42` fixes. -/
def lcgNext (s : Nat) : Nat := (s * 1103515245 + 12345) % 2147483648

/-- Minimum squared distance from a point to a nonempty list of already
chosen centroids (`0` when none are chosen yet). -/
def minSqDistTo (cs : List Point) (p : Point) : ℚ :=
  match cs with
  | [] => 0
  | c :: rest => rest.foldl (fun m q => min m (sqDist p q)) (sqDist p c)

/-- Pick an index from a weight list by a cumulative scan: the first index
whose prefix sum exceeds the target, the last index as fallback. -/
def pickWeighted : List ℚ → ℚ → Nat → Nat
  | [], _, i => i
  | [_], _, i => i
  | w :: ws, target, i =>
      if target < w then i else pickWeighted ws (target - w) (i + 1)

/-- Modelled from the spec (§4.3, initialization): distance-weighted
(`k-means++`) choice of the remaining centroids, selection probability
proportional to squared distance from the centroids already chosen, driven
by the deterministic stream. -/
def kppMore (pts : List Point) : Nat → List Point → Nat → List Point × Nat
  | 0, cs, s => (cs, s)
  | fuel + 1, cs, s =>
      let s' := lcgNext s
      let ws := pts.map (minSqDistTo cs)
      let target := ((s' % 1048576 : Nat) : ℚ) / 1048576 * ws.sum
      let i := pickWeighted ws target 0
      kppMore pts fuel (cs ++ [pts.getD i default]) s'

/-- Modelled from the spec (§4.3, initialization): seed `k` centroids, the
first uniformly from the data, the rest by distance-weighted sampling. -/
def kppInit (pts : List Point) (k : Nat) (s : Nat) : List Point × Nat :=
  let s' := lcgNext s
  let c0 := pts.getD (s' % pts.length) default
  kppMore pts (k - 1) [c0] s'

/-- Index of the nearest centroid among `rest`, scanning from index `i`
with current best index `bi` at squared distance `bd`; a strict comparison
keeps the earlier centroid on ties (lowest-index tie-break, §4.3 step 2). -/
def nearestAux (p : Point) : List Point → Nat → Nat → ℚ → Nat
  | [], _, bi, _ => bi
  | c :: cs, i, bi, bd =>
      if sqDist p c < bd then nearestAux p cs (i + 1) i (sqDist p c)
      else nearestAux p cs (i + 1) bi bd

/-- Assignment step (§4.3 step 2): the index of the centroid at minimum
Euclidean distance, ties broken by lowest index. -/
def nearestIdx (cs : List Point) (p : Point) : Nat :=
  match cs with
  | [] => 0
  | c :: rest => nearestAux p rest 1 0 (sqDist p c)

/-- Mean of a nonempty list of points, componentwise. -/
def meanPoint (ps : List Point) : Point :=
  (meanQ (ps.map (fun p => p.1)),
   meanQ (ps.map (fun p => p.2.1)),
   meanQ (ps.map (fun p => p.2.2)))

/-- Update step (§4.3 step 3): a centroid becomes the mean of its assigned
points; with zero assigned points it retains its previous position. -/
def updateCentroid (pts : List Point) (labels : List Nat) (j : Nat)
    (old : Point) : Point :=
  let assigned := ((pts.zip labels).filter (fun pl => pl.2 = j)).map (fun pl => pl.1)
  if assigned.isEmpty then old else meanPoint assigned

/-- Modelled from the spec (§4.3 steps 2-4): Lloyd iteration — assign,
update, stop when the assignment is stable or the iteration bound
(`max_iter = 300`) runs out, returning final centroids and labels. -/
def lloyd (pts : List Point) : Nat → List Point → List Point × List Nat
  | 0, cs => (cs, pts.map (nearestIdx cs))
  | fuel + 1, cs =>
      let labels := pts.map (nearestIdx cs)
      let cs' := cs.enum.map (fun jc => updateCentroid pts labels jc.1 jc.2)
      let labels' := pts.map (nearestIdx cs')
      if labels' = labels then (cs', labels') else lloyd pts fuel cs'

/-- Inertia (§4.3): total within-cluster squared Euclidean distance. -/
def inertia (pts : List Point) (cs : List Point) (labels : List Nat) : ℚ :=
  ((pts.zip labels).map (fun pl => sqDist pl.1 (cs.getD pl.2 default))).sum

/-- One restart: initialize, run Lloyd to the 300-iteration bound, score. -/
def kmeansOneRun (pts : List Point) (k : Nat) (s : Nat) :
    (ℚ × List Nat) × Nat :=
  let init := kppInit pts k s
  let run := lloyd pts 300 init.1
  ((inertia pts run.1 run.2, run.2), init.2)

/-- Modelled from the spec (§4.3 step 5): remaining `n_init` restarts,
keeping the strictly lowest-inertia labelling. -/
def kmeansRuns (pts : List Point) (k : Nat) :
    Nat → Nat → ℚ × List Nat → ℚ × List Nat
  | 0, _, best => best
  | n + 1, s, best =>
      let run := kmeansOneRun pts k s
      let best' := if run.1.1 < best.1 then run.1 else best
      kmeansRuns pts k n run.2 best'

/-- Best-of-`n_init` labelling (the `kmeans.fit_predict` result for a valid
configuration). -/
def kmeansFit (pts : List Point) (k : Nat) (seed : Nat) (nInit : Nat) :
    List Nat :=
  match nInit with
  | 0 => []
  | n + 1 =>
      let run := kmeansOneRun pts k seed
      (kmeansRuns pts k n run.2 run.1).2

/-- Errors a pipeline run can propagate: the scikit-learn `ValueError` for
an invalid sample/cluster configuration (`n_samples < n_clusters` or
`n_clusters = 0`), and the Python `IndexError` raised by the segment-map
construction when fewer than four cluster ids exist. There is no
empty-dataset error anywhere in the code. -/
inductive PipelineError where
  | valueErrorTooFewSamples (nSamples nClusters : Nat)
  | indexError
  deriving DecidableEq

/-- KMeans(n_clusters, init=k-means++, random_state=seed, n_init).fit_predict:
scikit-learn raises `ValueError` unless `1 ≤ n_clusters ≤ n_samples`;
otherwise the deterministic best-of-`n_init` labelling is returned. -/
def kmeansFitPredict (pts : List Point) (k : Nat) (seed : Nat)
    (nInit : Nat) : Except PipelineError (List Nat) :=
  if 0 < k ∧ k ≤ pts.length then .ok (kmeansFit pts k seed nInit)
  else .error (.valueErrorTooFewSamples pts.length k)

/-- Scale the RFM table and attach the fitted cluster ids: lines 63-68 of
`analysis.py` (and lines 45-58 of `analytics_engine.py` for a nonempty
table), with the random seed made an explicit parameter (the code passes
`random_state=42`). -/
def clusterAssignStage (rfm : List RfmRow) (k : Nat) (seed : Nat)
    (nInit : Nat) : Except PipelineError (List ClusteredRow) :=
  match kmeansFitPredict (scaledPoints rfm) k seed nInit with
  | .error e => .error e
  | .ok labels =>
      .ok ((rfm.zip labels).map (fun rl =>
        { customer_id := rl.1.customer_id
          recency := rl.1.recency
          frequency := rl.1.frequency
          monetary := rl.1.monetary
          cluster := rl.2 }))

/-- ClusterProfile row: per-cluster means on the unscaled RFM values plus
the member count (`rfm.groupby('cluster')[[...]].mean()` on line 70 of
`analysis.py`; the count is the size of the filtered group, as taken by
the campaign simulators). -/
structure ClusterProfile where
  cluster : Nat
  mean_recency : ℚ
  mean_frequency : ℚ
  mean_monetary : ℚ
  customer_count : Nat
  deriving DecidableEq

/-- Per-cluster profiles over the realized cluster ids, in sorted key order
as the `groupby` produces them. -/
def clusterProfiles (rows : List ClusteredRow) : List ClusterProfile :=
  (sortNat (rows.map (fun r => r.cluster)).dedup).map (fun j =>
    let g := rows.filter (fun r => r.cluster = j)
    { cluster := j
      mean_recency := meanQ (g.map (fun r => (r.recency : ℚ)))
      mean_frequency := meanQ (g.map (fun r => (r.frequency : ℚ)))
      mean_monetary := meanQ (g.map (fun r => r.monetary))
      customer_count := g.length })

/-- Stable descending insertion by mean monetary value. -/
def insertDesc (p : ClusterProfile) : List ClusterProfile → List ClusterProfile
  | [] => [p]
  | q :: qs =>
      if q.mean_monetary < p.mean_monetary then p :: q :: qs
      else q :: insertDesc p qs

/-- `cluster_profiles.sort_values(by='monetary', ascending=False)` (line 71
of `analysis.py`), as a stable descending sort. -/
def sortProfilesDesc : List ClusterProfile → List ClusterProfile
  | [] => []
  | p :: ps => insertDesc p (sortProfilesDesc ps)

/-- `ordered_clusters`: realized cluster ids ranked by mean monetary value,
descending (line 71 of `analysis.py`). -/
def orderedClusters (profiles : List ClusterProfile) : List Nat :=
  (sortProfilesDesc profiles).map (fun p => p.cluster)

/-- Full pipeline of `analysis.py` lines 53-76 with the random seed explicit
(`perform_rfm_kmeans_segmentation` passes `42`): RFM aggregation, log and
z-score scaling, k-means labelling, monetary ranking, segment labelling. -/
def perform_rfm_kmeans_segmentation_seeded (seed : Nat)
    (txs : List TransactionRecord) (n_clusters : Nat) :
    Except PipelineError (List SegRow) :=
  match clusterAssignStage (calculate_rfm txs) n_clusters seed 10 with
  | .error e => .error e
  | .ok rows =>
      match buildSegmentMap (orderedClusters (clusterProfiles rows)) with
      | none => .error .indexError
      | some segment_map =>
          .ok (rows.map (fun r =>
            { customer_id := r.customer_id
              recency := r.recency
              frequency := r.frequency
              monetary := r.monetary
              cluster := r.cluster
              segment := lookupSeg segment_map r.cluster }))

/-- `perform_rfm_kmeans_segmentation` exactly as called: `random_state=42`,
`n_init=10`. -/
def perform_rfm_kmeans_segmentation (txs : List TransactionRecord)
    (n_clusters : Nat) : Except PipelineError (List SegRow) :=
  perform_rfm_kmeans_segmentation_seeded 42 txs n_clusters

/-- `AnalyticsEngine._perform_kmeans_segmentation` (lines 40-59): an empty
RFM table short-circuits to an empty result before any scaling or
clustering; otherwise the shared cluster-assignment stage runs (the engine
stops before segment labelling — its clustered table has no segment
column). -/
def engine_perform_kmeans_segmentation (txs : List TransactionRecord)
    (n_clusters : Nat) : Except PipelineError (List ClusteredRow) :=
  let rfm := calculate_rfm txs
  if rfm.isEmpty then .ok [] else clusterAssignStage rfm n_clusters 42 10

/-! ### Basic lemmas about the groupby scaffolding -/

lemma insertNat_perm (x : Nat) (l : List Nat) :
    (insertNat x l).Perm (x :: l) := by
  induction l with
  | nil => simp [insertNat]
  | cons y ys ih =>
      by_cases h : x ≤ y
      · simp [insertNat, h]
      · simp only [insertNat, if_neg h]
        exact (ih.cons y).trans (List.Perm.swap x y ys)

lemma sortNat_perm (l : List Nat) : (sortNat l).Perm l := by
  induction l with
  | nil => simp [sortNat]
  | cons x xs ih => exact (insertNat_perm x (sortNat xs)).trans (ih.cons x)

lemma mem_sortNat {a : Nat} {l : List Nat} : a ∈ sortNat l ↔ a ∈ l :=
  (sortNat_perm l).mem_iff

lemma sortNat_nodup {l : List Nat} (h : l.Nodup) : (sortNat l).Nodup :=
  ((sortNat_perm l).nodup_iff).mpr h

lemma customerIds_nodup (txs : List TransactionRecord) :
    (customerIds txs).Nodup :=
  sortNat_nodup (List.nodup_dedup _)

lemma mem_customerIds {txs : List TransactionRecord} {c : Nat} :
    c ∈ customerIds txs ↔ c ∈ txs.map (fun t => t.customer_id) := by
  unfold customerIds
  rw [mem_sortNat, List.mem_dedup]

lemma mem_txsOf {txs : List TransactionRecord} {c : Nat} {t : TransactionRecord} :
    t ∈ txsOf txs c ↔ t ∈ txs ∧ t.customer_id = c := by
  simp [txsOf]

lemma txsOf_ne_nil {txs : List TransactionRecord} {c : Nat}
    (hc : c ∈ txs.map (fun t => t.customer_id)) : txsOf txs c ≠ [] := by
  rcases List.mem_map.mp hc with ⟨t, ht, hid⟩
  intro hnil
  have : t ∈ txsOf txs c := mem_txsOf.mpr ⟨ht, hid⟩
  simp [hnil] at this

lemma le_foldl_max_init (l : List TransactionRecord) (a : Nat) :
    a ≤ l.foldl (fun m t => max m t.invoice_date) a := by
  induction l generalizing a with
  | nil => exact le_rfl
  | cons t ts ih =>
      exact le_trans (le_max_left a t.invoice_date) (ih (max a t.invoice_date))

lemma mem_le_foldl_max (l : List TransactionRecord) (a : Nat)
    {t : TransactionRecord} (ht : t ∈ l) :
    t.invoice_date ≤ l.foldl (fun m t => max m t.invoice_date) a := by
  induction l generalizing a with
  | nil => cases ht
  | cons u us ih =>
      rcases List.mem_cons.mp ht with h | h
      · subst h
        exact le_trans (le_max_right a t.invoice_date)
          (le_foldl_max_init us (max a t.invoice_date))
      · exact ih (max a u.invoice_date) h

lemma le_maxInvoiceDate {l : List TransactionRecord} {t : TransactionRecord}
    (ht : t ∈ l) : t.invoice_date ≤ maxInvoiceDate l :=
  mem_le_foldl_max l 0 ht

lemma foldl_max_le (l : List TransactionRecord) (a b : Nat) (ha : a ≤ b)
    (h : ∀ t ∈ l, t.invoice_date ≤ b) :
    l.foldl (fun m t => max m t.invoice_date) a ≤ b := by
  induction l generalizing a with
  | nil => exact ha
  | cons t ts ih =>
      exact ih (max a t.invoice_date)
        (max_le ha (h t (List.mem_cons_self t ts)))
        (fun u hu => h u (List.mem_cons_of_mem t hu))

lemma maxInvoiceDate_txsOf_le (txs : List TransactionRecord) (c : Nat) :
    maxInvoiceDate (txsOf txs c) ≤ maxInvoiceDate txs := by
  unfold maxInvoiceDate
  exact foldl_max_le _ 0 _ (Nat.zero_le _)
    (fun t ht => le_maxInvoiceDate (mem_txsOf.mp ht).1)

/-! ### Claim theorems: campaign simulation -/

/-- C1. The campaign-scenario claim, settled against both implementations.
The `analysis.py` simulator on a 10-customer target group with average
spend 100 at discount 0.10 produces exactly the claimed projection:
revenue 1150, cost 115, net profit 1035, ROI 900 percent, using
`roi = net_profit / campaign_cost * 100`. The engine variant evaluated on
the same group diverges: its line-105 formula
`(net_profit - campaign_cost) / campaign_cost` yields 800 percent, not the
claimed 900, contradicting the ROI definition documented at
`analysis.py` lines 117-119. -/
theorem campaign_scenario_roi_and_engine_divergence :
    run_campaign_simulation
        (List.replicate 10
          { customer_id := 1, recency := 1, frequency := 1, monetary := 100,
            cluster := 0, segment := some "Champions" })
        "Champions" (1 / 10) =
      .ok { target_segment := "Champions", targeted_customers := 10,
            projected_revenue := 1150, campaign_cost := 115,
            net_profit := 1035, projected_roi_percent := 900 } ∧
    engine_run_campaign_simulation
        (List.replicate 10
          { customer_id := 1, recency := 1, frequency := 1, monetary := 100,
            cluster := 0 })
        0 (1 / 10) =
      .ok { target_cluster := 0, customer_count := 10,
            projected_revenue := 1150, campaign_cost := 115,
            projected_roi_percent := 800 } := by
  constructor <;>
    norm_num [run_campaign_simulation, engine_run_campaign_simulation,
      List.replicate]

/-- C2. A target selector matching zero customers makes both campaign
simulators return their structured error value; no exception escapes and
no division is reached. -/
theorem campaign_empty_target_structured_error
    (rows : List SegRow) (erows : List ClusteredRow) (target : String)
    (target_cluster : Nat) (d d₂ : ℚ)
    (h₁ : rows.filter (fun r => r.segment = some target) = [])
    (h₂ : erows.filter (fun r => r.cluster = target_cluster) = []) :
    run_campaign_simulation rows target d = .segmentNotFound target ∧
    engine_run_campaign_simulation erows target_cluster d₂ = .clusterNotFound := by
  constructor
  · simp [run_campaign_simulation, h₁]
  · simp [engine_run_campaign_simulation, h₂]

/-- Witness for C2 at a concrete nonempty table whose rows all miss the
target selector. -/
theorem campaign_empty_target_structured_error_witness :
    ([({ customer_id := 1, recency := 1, frequency := 1, monetary := 50,
         cluster := 0, segment := some "Loyal" } : SegRow)].filter
        (fun r => r.segment = some "Champions") = [] ∧
     [({ customer_id := 1, recency := 1, frequency := 1, monetary := 50,
         cluster := 2 } : ClusteredRow)].filter (fun r => r.cluster = 0) = []) ∧
    (run_campaign_simulation
        [{ customer_id := 1, recency := 1, frequency := 1, monetary := 50,
           cluster := 0, segment := some "Loyal" }] "Champions" (1 / 10) =
        .segmentNotFound "Champions" ∧
     engine_run_campaign_simulation
        [{ customer_id := 1, recency := 1, frequency := 1, monetary := 50,
           cluster := 2 }] 0 (1 / 10) = .clusterNotFound) :=
  ⟨⟨by decide, by decide⟩,
    campaign_empty_target_structured_error _ _ _ _ _ _ (by decide) (by decide)⟩

/-! ### Claim theorems: empty input and label configuration -/

/-- C3 counterexample. On an empty transaction collection the RFM
aggregation returns an empty table and no error value at all — there is no
empty-dataset error anywhere in the code — and the standalone analysis
pipeline then propagates the clustering library's `ValueError`
(`n_samples = 0 < n_clusters = 4`) instead of any structured error value,
contradicting the claim that callers see an EmptyDatasetError and empty
downstream tables rather than a crash. -/
theorem empty_input_analysis_pipeline_propagates_error :
    calculate_rfm [] = [] ∧
    perform_rfm_kmeans_segmentation [] 4 =
      .error (.valueErrorTooFewSamples 0 4) :=
  ⟨rfl, rfl⟩

/-- C3 amended. What the code actually does on an empty input collection:
the RFM aggregation yields an empty table without raising, and the
engine's segmentation short-circuits on its explicit empty-check and
returns an empty clustered table (its `n_clusters` default is 5). -/
theorem empty_input_engine_returns_empty_table :
    calculate_rfm [] = [] ∧
    engine_perform_kmeans_segmentation [] 5 = .ok [] :=
  ⟨rfl, rfl⟩

/-- C4. The labeler performs no setup-time validation of `n_clusters`
against its hardcoded four-entry label list. With three realized clusters
the segment-map construction fails only at labeling time (the Python
`IndexError` on `ordered_clusters[3]`, modelled as `none`); with five
realized clusters the map is built silently from the top four ranks and
the fifth-ranked cluster id gets no label at lookup time. -/
theorem label_list_mismatch_fails_at_labeling_time :
    buildSegmentMap [0, 1, 2] = none ∧
    buildSegmentMap [0, 1, 2, 3, 4] =
      some [(0, "Champions"), (1, "Loyal"), (2, "At Risk"),
            (3, "Needs Attention")] ∧
    lookupSeg [(0, "Champions"), (1, "Loyal"), (2, "At Risk"),
               (3, "Needs Attention")] 4 = none := by
  refine ⟨by decide, by decide, by decide⟩

/-! ### Claim theorems: RFM feature invariants -/

/-- C5. Every row of the RFM table has nonnegative recency and frequency at
least one, and a customer whose latest invoice date equals the global
maximum invoice date has recency exactly 1: the reference date is the
maximum invoice date plus one day. -/
theorem rfm_recency_nonneg_frequency_pos (txs : List TransactionRecord)
    (r : RfmRow) (hr : r ∈ calculate_rfm txs) :
    0 ≤ r.recency ∧ 1 ≤ r.frequency ∧
      (maxInvoiceDate (txsOf txs r.customer_id) = maxInvoiceDate txs →
        r.recency = 1) := by
  simp only [calculate_rfm] at hr
  rcases List.mem_map.mp hr with ⟨c, hc, hrr⟩
  subst hrr
  have hgle : maxInvoiceDate (txsOf txs c) ≤ maxInvoiceDate txs :=
    maxInvoiceDate_txsOf_le txs c
  have hne : txsOf txs c ≠ [] := txsOf_ne_nil (mem_customerIds.mp hc)
  refine ⟨?_, ?_, ?_⟩
  · show (0 : Int) ≤ (referenceDate txs : Int) -
      (maxInvoiceDate (txsOf txs c) : Int)
    unfold referenceDate
    omega
  · show 1 ≤ (((txsOf txs c).map (fun t => t.invoice_no)).dedup).length
    have hmne : (txsOf txs c).map (fun t => t.invoice_no) ≠ [] := by
      intro h
      exact hne (List.map_eq_nil_iff.mp h)
    have : ((txsOf txs c).map (fun t => t.invoice_no)).dedup ≠ [] := by
      intro h
      exact hmne ((List.dedup_eq_nil _).mp h)
    exact List.length_pos.mpr this
  · intro he
    have he' : maxInvoiceDate (txsOf txs c) = maxInvoiceDate txs := he
    show (referenceDate txs : Int) - (maxInvoiceDate (txsOf txs c) : Int) = 1
    rw [he']
    unfold referenceDate
    omega

/-- A one-transaction sample input used by the C5 witness. -/
def sampleTxsOne : List TransactionRecord :=
  [{ customer_id := 1, invoice_no := 100, invoice_date := 10, net_sales := 50 }]

/-- The RFM row the sample input produces. -/
def sampleRfmRowOne : RfmRow :=
  { customer_id := 1, recency := 1, frequency := 1, monetary := 50 }

/-- Witness for C5 at a one-transaction input: the single customer has the
globally latest invoice, frequency 1 and recency 1. -/
theorem rfm_recency_nonneg_frequency_pos_witness :
    sampleRfmRowOne ∈ calculate_rfm sampleTxsOne ∧
    (0 ≤ sampleRfmRowOne.recency ∧ 1 ≤ sampleRfmRowOne.frequency ∧
      (maxInvoiceDate (txsOf sampleTxsOne sampleRfmRowOne.customer_id) =
          maxInvoiceDate sampleTxsOne → sampleRfmRowOne.recency = 1)) :=
  ⟨by norm_num [calculate_rfm, customerIds, sortNat, insertNat, rfmRowOf,
      txsOf, maxInvoiceDate, referenceDate, sampleTxsOne, sampleRfmRowOne],
   rfm_recency_nonneg_frequency_pos _ _
     (by norm_num [calculate_rfm, customerIds, sortNat, insertNat, rfmRowOf,
        txsOf, maxInvoiceDate, referenceDate, sampleTxsOne, sampleRfmRowOne])⟩

/-- Count of distinct invoice numbers of one customer, stated directly on
the input rows (the spec's definition of `frequency[c]`). -/
def distinctInvoiceCount (txs : List TransactionRecord) (c : Nat) : Nat :=
  (((txsOf txs c).map (fun t => t.invoice_no)).dedup).length

/-- Sum of `net_sales` over all rows of one customer, stated directly on
the input rows (the spec's definition of `monetary[c]`). -/
def totalNetSales (txs : List TransactionRecord) (c : Nat) : ℚ :=
  ((txsOf txs c).map (fun t => t.net_sales)).sum

/-- Latest invoice date of one customer, stated directly on the input rows. -/
def latestInvoiceDate (txs : List TransactionRecord) (c : Nat) : Nat :=
  maxInvoiceDate (txsOf txs c)

lemma find?_map_key (keys : List Nat) (f : Nat → RfmRow)
    (hf : ∀ k, (f k).customer_id = k) (c : Nat) (hc : c ∈ keys) :
    (keys.map f).find? (fun r => r.customer_id = c) = some (f c) := by
  induction keys with
  | nil => cases hc
  | cons k ks ih =>
      rw [List.map_cons]
      by_cases hkc : k = c
      · subst hkc
        rw [List.find?_cons_of_pos]
        simp [hf]
      · rw [List.find?_cons_of_neg]
        · rcases List.mem_cons.mp hc with h | h
          · exact absurd h.symm hkc
          · exact ih h
        · simp [hf, hkc]

/-- C6. The RFM table row of each customer present in the input carries
exactly the count of that customer's distinct invoice numbers (not the
row count), the sum of that customer's `net_sales`, and a recency measured
against the single per-run reference date. -/
theorem rfm_row_matches_distinct_invoices_and_sales
    (txs : List TransactionRecord) (c : Nat)
    (hc : c ∈ txs.map (fun t => t.customer_id)) :
    (calculate_rfm txs).find? (fun r => r.customer_id = c) =
      some { customer_id := c,
             recency := (referenceDate txs : Int) -
               (latestInvoiceDate txs c : Int),
             frequency := distinctInvoiceCount txs c,
             monetary := totalNetSales txs c } := by
  have hc' : c ∈ customerIds txs := mem_customerIds.mpr hc
  simp only [calculate_rfm]
  rw [find?_map_key _ _ (fun k => rfl) c hc']
  rfl

/-- A two-row, one-invoice sample input used by the C6 witness. -/
def sampleTxsTwo : List TransactionRecord :=
  [{ customer_id := 1, invoice_no := 100, invoice_date := 10, net_sales := 30 },
   { customer_id := 1, invoice_no := 100, invoice_date := 10, net_sales := 20 }]

/-- Witness for C6: a customer with two rows on one shared invoice has
frequency 1 (a multi-line invoice counts once) and monetary equal to the
sum of both rows. -/
theorem rfm_row_matches_distinct_invoices_and_sales_witness :
    (1 ∈ sampleTxsTwo.map (fun t => t.customer_id)) ∧
    (calculate_rfm sampleTxsTwo).find? (fun r => r.customer_id = 1) =
      some { customer_id := 1,
             recency := (referenceDate sampleTxsTwo : Int) -
               (latestInvoiceDate sampleTxsTwo 1 : Int),
             frequency := distinctInvoiceCount sampleTxsTwo 1,
             monetary := totalNetSales sampleTxsTwo 1 } :=
  ⟨by norm_num [sampleTxsTwo],
   rfm_row_matches_distinct_invoices_and_sales _ 1 (by norm_num [sampleTxsTwo])⟩

/-! ### Claim theorems: determinism -/

/-- C9. The segmentation pipeline is a pure function of its input, its
random seed and its cluster count: two runs on equal inputs with equal
seeds and equal k produce identical segmented tables — identical cluster
assignment per customer and identical cluster-to-segment labelling
(both are components of every `SegRow`). -/
theorem segmentation_deterministic_in_input_seed_k
    (txs₁ txs₂ : List TransactionRecord) (k₁ k₂ s₁ s₂ : Nat)
    (ht : txs₁ = txs₂) (hk : k₁ = k₂) (hs : s₁ = s₂) :
    perform_rfm_kmeans_segmentation_seeded s₁ txs₁ k₁ =
      perform_rfm_kmeans_segmentation_seeded s₂ txs₂ k₂ := by
  subst ht
  subst hk
  subst hs
  rfl

/-- Witness for C9 at a concrete input, seed 42 (the value the code pins as
`random_state=42`) and k = 4. -/
theorem segmentation_deterministic_in_input_seed_k_witness :
    (sampleTxsOne = sampleTxsOne ∧ (4 : Nat) = 4 ∧ (42 : Nat) = 42) ∧
    perform_rfm_kmeans_segmentation_seeded 42 sampleTxsOne 4 =
      perform_rfm_kmeans_segmentation_seeded 42 sampleTxsOne 4 :=
  ⟨⟨rfl, rfl, rfl⟩,
   segmentation_deterministic_in_input_seed_k _ _ _ _ _ _ rfl rfl rfl⟩

/-! ### Claim theorems: the ROI closed form -/

/-- A nonempty target group with zero total spend, used against C10. -/
def zeroSpendRows : List SegRow :=
  [{ customer_id := 1, recency := 1, frequency := 1, monetary := 0,
     cluster := 0, segment := some "Champions" }]

/-- C10 counterexample. A non-empty target segment whose monetary values
sum to zero gives `campaign_cost = 0`, so the code takes the `else 0`
branch: the ROI is 0, not the claimed `((1 - d) / d) * 100 = 900` at
`d = 0.10`. The claimed closed form therefore does not hold for every
non-empty target segment. -/
theorem roi_zero_spend_counterexample :
    run_campaign_simulation zeroSpendRows "Champions" (1 / 10) =
      .ok { target_segment := "Champions", targeted_customers := 1,
            projected_revenue := 0, campaign_cost := 0, net_profit := 0,
            projected_roi_percent := 0 } ∧
    (1 - (1 : ℚ) / 10) / (1 / 10) * 100 = 900 ∧ (0 : ℚ) ≠ 900 := by
  refine ⟨?_, by norm_num, by norm_num⟩
  norm_num [run_campaign_simulation, zeroSpendRows]

/-- C10 amended. For a target segment with positive total spend and any
discount `d` with `0 < d < 1`, the projected ROI percentage is exactly
`((1 - d) / d) * 100`: it depends only on the discount rate, not on the
segment, its customer count, or its average spend. -/
theorem roi_depends_only_on_discount (rows : List SegRow) (target : String)
    (d : ℚ) (p : CampaignProjection) (hd0 : 0 < d) (hd1 : d < 1)
    (hpos : 0 < ((rows.filter (fun r => r.segment = some target)).map
      (fun r => r.monetary)).sum)
    (hok : run_campaign_simulation rows target d = .ok p) :
    p.projected_roi_percent = (1 - d) / d * 100 := by
  simp only [run_campaign_simulation] at hok
  set tgt := rows.filter (fun r => r.segment = some target) with htgt
  set S := (tgt.map (fun r => r.monetary)).sum with hS
  by_cases hemp : tgt.isEmpty
  · rw [if_pos hemp] at hok
    exact absurd hok (by simp)
  · rw [if_neg hemp] at hok
    have hn : 0 < (tgt.length : ℚ) := by
      have : tgt ≠ [] := fun h => hemp (by simp [h])
      have : 0 < tgt.length := List.length_pos.mpr this
      exact_mod_cast this
    have hrev : (tgt.length : ℚ) * (S / (tgt.length : ℚ)) * (23 / 20) =
        S * (23 / 20) := by
      field_simp
    rw [hrev] at hok
    have hSpos : 0 < S := hpos
    have hcost : 0 < S * (23 / 20) * d := by positivity
    rw [if_pos hcost] at hok
    injection hok with h
    subst h
    have hd : d ≠ 0 := ne_of_gt hd0
    have hS0 : S ≠ 0 := ne_of_gt hSpos
    show (S * (23 / 20) - S * (23 / 20) * d) / (S * (23 / 20) * d) * 100 =
      (1 - d) / d * 100
    field_simp
    ring

/-! ### Structural lemmas about the clustering stage -/

lemma standardize_length (rows : List (ℚ × ℚ × ℚ)) :
    (standardize rows).length = rows.length := by
  simp [standardize]

lemma scaledPoints_length (rfm : List RfmRow) :
    (scaledPoints rfm).length = rfm.length := by
  simp [scaledPoints, standardize_length]

lemma kppMore_fst_length (pts : List Point) :
    ∀ (fuel : Nat) (cs : List Point) (s : Nat),
      ((kppMore pts fuel cs s).1).length = cs.length + fuel := by
  intro fuel
  induction fuel with
  | zero => intro cs s; simp [kppMore]
  | succ n ih =>
      intro cs s
      simp only [kppMore]
      rw [ih]
      simp
      omega

lemma kppInit_fst_length (pts : List Point) (k s : Nat) (hk : 0 < k) :
    ((kppInit pts k s).1).length = k := by
  simp only [kppInit]
  rw [kppMore_fst_length]
  simp
  omega

lemma nearestAux_lt (p : Point) :
    ∀ (l : List Point) (i bi : Nat) (bd : ℚ), bi < i →
      nearestAux p l i bi bd < i + l.length := by
  intro l
  induction l with
  | nil => intro i bi bd h; simpa [nearestAux] using h
  | cons c cs ih =>
      intro i bi bd h
      simp only [nearestAux, List.length_cons]
      have harith : (i + 1) + cs.length = i + (cs.length + 1) := by omega
      split
      · have := ih (i + 1) i (sqDist p c) (Nat.lt_succ_self i)
        omega
      · have := ih (i + 1) bi bd (Nat.lt_trans h (Nat.lt_succ_self i))
        omega

lemma nearestIdx_lt (cs : List Point) (p : Point) (h : cs ≠ []) :
    nearestIdx cs p < cs.length := by
  cases cs with
  | nil => exact absurd rfl h
  | cons c rest =>
      have := nearestAux_lt p rest 1 0 (sqDist p c) Nat.one_pos
      simp only [nearestIdx, List.length_cons]
      omega

lemma lloyd_snd_spec (pts : List Point) :
    ∀ (fuel : Nat) (cs : List Point),
      ∃ cs₂, (lloyd pts fuel cs).2 = pts.map (nearestIdx cs₂) ∧
        cs₂.length = cs.length := by
  intro fuel
  induction fuel with
  | zero => intro cs; exact ⟨cs, rfl, rfl⟩
  | succ n ih =>
      intro cs
      simp only [lloyd]
      split
      · refine ⟨cs.enum.map (fun jc => updateCentroid pts
          (pts.map (nearestIdx cs)) jc.1 jc.2), rfl, ?_⟩
        simp
      · obtain ⟨c₂, h1, h2⟩ := ih (cs.enum.map (fun jc => updateCentroid pts
          (pts.map (nearestIdx cs)) jc.1 jc.2))
        refine ⟨c₂, h1, ?_⟩
        rw [h2]
        simp

/-- Shape invariant of a labelling: one label per point, all below k. -/
def GoodLabels (pts : List Point) (k : Nat) (ls : List Nat) : Prop :=
  ls.length = pts.length ∧ ∀ x ∈ ls, x < k

lemma kmeansOneRun_good (pts : List Point) (k s : Nat) (hk : 0 < k) :
    GoodLabels pts k (kmeansOneRun pts k s).1.2 := by
  simp only [kmeansOneRun]
  obtain ⟨cs₂, h1, h2⟩ := lloyd_snd_spec pts 300 (kppInit pts k s).1
  rw [kppInit_fst_length pts k s hk] at h2
  constructor
  · simp [h1]
  · intro x hx
    rw [h1] at hx
    rcases List.mem_map.mp hx with ⟨q, _, hq⟩
    subst hq
    have hne : cs₂ ≠ [] := by
      intro hnil
      rw [hnil] at h2
      simp at h2
      omega
    have := nearestIdx_lt cs₂ q hne
    omega

lemma kmeansRuns_good (pts : List Point) (k : Nat) (hk : 0 < k) :
    ∀ (n s : Nat) (best : ℚ × List Nat), GoodLabels pts k best.2 →
      GoodLabels pts k (kmeansRuns pts k n s best).2 := by
  intro n
  induction n with
  | zero => intro s best hb; simpa [kmeansRuns] using hb
  | succ m ih =>
      intro s best hb
      simp only [kmeansRuns]
      apply ih
      split
      · exact kmeansOneRun_good pts k s hk
      · exact hb

lemma kmeansFit_good (pts : List Point) (k seed n : Nat) (hk : 0 < k) :
    GoodLabels pts k (kmeansFit pts k seed (n + 1)) := by
  simp only [kmeansFit]
  exact kmeansRuns_good pts k hk n _ _ (kmeansOneRun_good pts k seed hk)

lemma length_filter_add_length_filter_not (l : List ClusteredRow)
    (p : ClusteredRow → Bool) :
    (l.filter p).length + (l.filter (fun r => !(p r))).length = l.length := by
  induction l with
  | nil => simp
  | cons r rl ih =>
      by_cases hr : p r
      · simp [List.filter_cons, hr]
        omega
      · simp [List.filter_cons, hr]
        omega

lemma sum_counts_over_keys :
    ∀ (keys : List Nat) (l : List ClusteredRow), keys.Nodup →
      (∀ r ∈ l, r.cluster ∈ keys) →
      (keys.map (fun j => (l.filter (fun r => r.cluster = j)).length)).sum =
        l.length := by
  intro keys
  induction keys with
  | nil =>
      intro l _ hcov
      have : l = [] := by
        cases l with
        | nil => rfl
        | cons r rl => exact absurd (hcov r (List.mem_cons_self r rl)) (by simp)
      simp [this]
  | cons j ks ih =>
      intro l hnd hcov
      have hnd' := List.nodup_cons.mp hnd
      simp only [List.map_cons, List.sum_cons]
      have hsplit := length_filter_add_length_filter_not l
        (fun r => decide (r.cluster = j))
      have hmap : ks.map (fun w => (l.filter (fun r => r.cluster = w)).length) =
          ks.map (fun w => ((l.filter (fun r => !(decide (r.cluster = j)))).filter
            (fun r => r.cluster = w)).length) := by
        apply List.map_congr_left
        intro w hw
        have hwj : w ≠ j := by
          intro he
          exact hnd'.1 (he ▸ hw)
        congr 1
        rw [List.filter_filter]
        apply List.filter_congr
        intro r _
        by_cases hrw : r.cluster = w
        · simp [hrw, hwj]
        · simp [hrw]
      rw [hmap]
      rw [ih (l.filter (fun r => !(decide (r.cluster = j)))) hnd'.2 ?_]
      · omega
      · intro r hr
        have hrl := List.mem_filter.mp hr
        have := hcov r hrl.1
        rcases List.mem_cons.mp this with h | h
        · exact absurd (decide_eq_true h) (by simpa using hrl.2)
        · exact h

lemma clusterProfiles_counts (rows : List ClusteredRow) :
    ((clusterProfiles rows).map (fun p => p.customer_count)).sum =
      rows.length := by
  have hrw : (clusterProfiles rows).map (fun p => p.customer_count) =
      (sortNat (rows.map (fun r => r.cluster)).dedup).map
        (fun j => (rows.filter (fun r => r.cluster = j)).length) := by
    simp only [clusterProfiles, List.map_map]
    rfl
  rw [hrw]
  apply sum_counts_over_keys
  · exact sortNat_nodup (List.nodup_dedup _)
  · intro r hr
    exact mem_sortNat.mpr (List.mem_dedup.mpr (List.mem_map_of_mem _ hr))

lemma zip_rows_map_customer (rfm : List RfmRow) (labels : List Nat)
    (hlen : rfm.length ≤ labels.length) :
    (((rfm.zip labels).map (fun rl =>
        ({ customer_id := rl.1.customer_id, recency := rl.1.recency,
           frequency := rl.1.frequency, monetary := rl.1.monetary,
           cluster := rl.2 } : ClusteredRow))).map (fun r => r.customer_id)) =
      rfm.map (fun r => r.customer_id) := by
  induction rfm generalizing labels with
  | nil => simp
  | cons r rs ih =>
      cases labels with
      | nil => simp at hlen
      | cons x xs =>
          simp only [List.zip_cons_cons, List.map_cons]
          rw [ih xs (by simpa using hlen)]

/-- C8. A successful cluster-assignment stage partitions the customer set:
the output rows carry exactly the customer ids of the RFM table in order
(so each customer appears exactly once and belongs to exactly one
cluster), every assigned cluster id lies in `[0, k)`, and the per-cluster
member counts of the profile table sum to the total number of customers. -/
theorem cluster_assignment_partitions_customers (rfm : List RfmRow) (k : Nat)
    (rows : List ClusteredRow)
    (h : clusterAssignStage rfm k 42 10 = .ok rows) :
    rows.map (fun r => r.customer_id) = rfm.map (fun r => r.customer_id) ∧
    (∀ r ∈ rows, r.cluster < k) ∧
    ((clusterProfiles rows).map (fun p => p.customer_count)).sum =
      rfm.length := by
  simp only [clusterAssignStage] at h
  split at h
  case h_1 e heq => exact Except.noConfusion h
  case h_2 labels heq =>
    simp only [kmeansFitPredict] at heq
    split at heq
    case isTrue hcond =>
      have hlab : labels = kmeansFit (scaledPoints rfm) k 42 10 :=
        (Except.ok.inj heq).symm
      subst hlab
      have hrows : rows = (rfm.zip (kmeansFit (scaledPoints rfm) k 42 10)).map
          (fun rl => ({ customer_id := rl.1.customer_id,
                        recency := rl.1.recency, frequency := rl.1.frequency,
                        monetary := rl.1.monetary,
                        cluster := rl.2 } : ClusteredRow)) :=
        (Except.ok.inj h).symm
      have hgood : GoodLabels (scaledPoints rfm) k
          (kmeansFit (scaledPoints rfm) k 42 10) :=
        kmeansFit_good (scaledPoints rfm) k 42 9 hcond.1
      have hlen : (kmeansFit (scaledPoints rfm) k 42 10).length = rfm.length := by
        rw [hgood.1, scaledPoints_length]
      refine ⟨?_, ?_, ?_⟩
      · rw [hrows]
        exact zip_rows_map_customer rfm _ (le_of_eq hlen.symm)
      · intro r hr
        rw [hrows] at hr
        rcases List.mem_map.mp hr with ⟨rl, hrl, hmk⟩
        have hmem : rl.2 ∈ kmeansFit (scaledPoints rfm) k 42 10 :=
          (List.of_mem_zip hrl).2
        have := hgood.2 rl.2 hmem
        rw [← hmk]
        exact this
      · rw [clusterProfiles_counts, hrows]
        simp [List.length_zip, hlen]
    case isFalse hcond => exact Except.noConfusion heq

/-! ### Concrete evaluation of the clustering stage for the C8 witness -/

/-- A one-customer RFM table on which the whole clustering stage can be
evaluated in closed form. -/
def witnessRfm : List RfmRow :=
  [{ customer_id := 1, recency := 1, frequency := 1, monetary := 5 }]

/-- The clustered table the stage produces on `witnessRfm` with k = 1. -/
def witnessClusteredRows : List ClusteredRow :=
  [{ customer_id := 1, recency := 1, frequency := 1, monetary := 5,
     cluster := 0 }]

lemma lloyd_step_stable (pts : List Point) (fuel : Nat) (cs : List Point)
    (h : pts.map (nearestIdx (cs.enum.map (fun jc =>
        updateCentroid pts (pts.map (nearestIdx cs)) jc.1 jc.2))) =
      pts.map (nearestIdx cs)) :
    lloyd pts (fuel + 1) cs =
      (cs.enum.map (fun jc =>
        updateCentroid pts (pts.map (nearestIdx cs)) jc.1 jc.2),
       pts.map (nearestIdx cs)) := by
  simp only [lloyd]
  rw [if_pos h, h]

lemma witness_scaled : scaledPoints witnessRfm = [(0 : Point)] := by
  norm_num [scaledPoints, standardize, log1p, meanQ, varQ, scaleOf, sqrtQ,
    witnessRfm, Prod.ext_iff]

lemma witness_upd :
    ([(0 : Point)].enum.map (fun jc =>
        updateCentroid [(0 : Point)]
          ([(0 : Point)].map (nearestIdx [(0 : Point)])) jc.1 jc.2)) =
      [(0 : Point)] := by
  norm_num [List.enum, List.enumFrom, updateCentroid, nearestIdx, nearestAux,
    meanPoint, meanQ, Prod.ext_iff]

lemma witness_lloyd :
    lloyd [(0 : Point)] 300 [(0 : Point)] = ([(0 : Point)], [0]) := by
  rw [show (300 : Nat) = 299 + 1 from rfl]
  rw [lloyd_step_stable _ _ _ (by rw [witness_upd])]
  rw [witness_upd]
  rfl

lemma witness_one_run (s : Nat) :
    kmeansOneRun [(0 : Point)] 1 s = ((0, [0]), lcgNext s) := by
  simp only [kmeansOneRun, kppInit]
  norm_num [kppMore, Nat.mod_one, witness_lloyd, inertia, sqDist]

lemma witness_runs (n : Nat) :
    ∀ s, kmeansRuns [(0 : Point)] 1 n s (0, [0]) = (0, [0]) := by
  induction n with
  | zero => intro s; simp [kmeansRuns]
  | succ m ih => intro s; simp [kmeansRuns, witness_one_run, ih]

lemma witness_fit : kmeansFit [(0 : Point)] 1 42 10 = [0] := by
  simp [kmeansFit, witness_one_run, witness_runs]

lemma witness_stage :
    clusterAssignStage witnessRfm 1 42 10 = .ok witnessClusteredRows := by
  simp only [clusterAssignStage, kmeansFitPredict, witness_scaled, witness_fit]
  norm_num [witnessRfm, witnessClusteredRows]

/-- Witness for C8: on the one-customer table with k = 1 the stage succeeds
and the partition invariants hold for its concrete output. -/
theorem cluster_assignment_partitions_customers_witness :
    clusterAssignStage witnessRfm 1 42 10 = .ok witnessClusteredRows ∧
    (witnessClusteredRows.map (fun r => r.customer_id) =
        witnessRfm.map (fun r => r.customer_id) ∧
      (∀ r ∈ witnessClusteredRows, r.cluster < 1) ∧
      ((clusterProfiles witnessClusteredRows).map
          (fun p => p.customer_count)).sum = witnessRfm.length) :=
  ⟨witness_stage,
   cluster_assignment_partitions_customers witnessRfm 1 witnessClusteredRows
     witness_stage⟩

/-! ### Lemmas about the labeler ordering -/

lemma insertDesc_perm (p : ClusterProfile) (l : List ClusterProfile) :
    (insertDesc p l).Perm (p :: l) := by
  induction l with
  | nil => simp [insertDesc]
  | cons q qs ih =>
      by_cases h : q.mean_monetary < p.mean_monetary
      · simp [insertDesc, h]
      · simp only [insertDesc, if_neg h]
        exact (ih.cons q).trans (List.Perm.swap p q qs)

lemma sortProfilesDesc_perm (l : List ClusterProfile) :
    (sortProfilesDesc l).Perm l := by
  induction l with
  | nil => simp [sortProfilesDesc]
  | cons p ps ih =>
      exact (insertDesc_perm p (sortProfilesDesc ps)).trans (ih.cons p)

lemma mem_insertDesc {p x : ClusterProfile} {l : List ClusterProfile} :
    x ∈ insertDesc p l ↔ x = p ∨ x ∈ l := by
  rw [(insertDesc_perm p l).mem_iff]
  simp

lemma pairwise_insertDesc (p : ClusterProfile) (l : List ClusterProfile)
    (h : l.Pairwise (fun x y => y.mean_monetary ≤ x.mean_monetary)) :
    (insertDesc p l).Pairwise
      (fun x y => y.mean_monetary ≤ x.mean_monetary) := by
  induction l with
  | nil => simp [insertDesc]
  | cons q qs ih =>
      rw [List.pairwise_cons] at h
      by_cases hq : q.mean_monetary < p.mean_monetary
      · simp only [insertDesc, if_pos hq]
        rw [List.pairwise_cons]
        constructor
        · intro x hx
          rcases List.mem_cons.mp hx with rfl | hx'
          · exact le_of_lt hq
          · exact le_trans (h.1 x hx') (le_of_lt hq)
        · exact List.pairwise_cons.mpr h
      · simp only [insertDesc, if_neg hq]
        rw [List.pairwise_cons]
        constructor
        · intro x hx
          rcases mem_insertDesc.mp hx with rfl | hx'
          · exact not_lt.mp hq
          · exact h.1 x hx'
        · exact ih h.2

lemma sortProfilesDesc_sorted (l : List ClusterProfile) :
    (sortProfilesDesc l).Pairwise
      (fun x y => y.mean_monetary ≤ x.mean_monetary) := by
  induction l with
  | nil => simp [sortProfilesDesc]
  | cons p ps ih => exact pairwise_insertDesc p _ ih

lemma clusterProfiles_map_cluster (rows : List ClusteredRow) :
    (clusterProfiles rows).map (fun p => p.cluster) =
      sortNat (rows.map (fun r => r.cluster)).dedup := by
  simp only [clusterProfiles, List.map_map]
  exact List.map_id _

lemma cluster_inj (S : List ClusterProfile)
    (hnd : (S.map (fun p => p.cluster)).Nodup)
    {A B : ClusterProfile} (hA : A ∈ S) (hB : B ∈ S)
    (h : A.cluster = B.cluster) : A = B := by
  induction S with
  | nil => cases hA
  | cons P Sr ih =>
      simp only [List.map_cons, List.nodup_cons] at hnd
      rcases List.mem_cons.mp hA with rfl | hA'
      · rcases List.mem_cons.mp hB with rfl | hB'
        · rfl
        · have : A.cluster ∈ Sr.map (fun p => p.cluster) := by
            rw [h]
            exact List.mem_map_of_mem _ hB'
          exact absurd this hnd.1
      · rcases List.mem_cons.mp hB with rfl | hB'
        · have : B.cluster ∈ Sr.map (fun p => p.cluster) := by
            rw [← h]
            exact List.mem_map_of_mem _ hA'
          exact absurd this hnd.1
        · exact ih hnd.2 hA' hB'

lemma label_rank_lt (S : List ClusterProfile)
    (hsort : S.Pairwise (fun x y => y.mean_monetary ≤ x.mean_monetary))
    (hnd : (S.map (fun p => p.cluster)).Nodup)
    (A B : ClusterProfile) (hA : A ∈ S) (hB : B ∈ S)
    (hgt : B.mean_monetary < A.mean_monetary)
    (m : List (Nat × String)) (lA lB : String)
    (hm : buildSegmentMap (S.map (fun p => p.cluster)) = some m)
    (hlA : lookupSeg m A.cluster = some lA)
    (hlB : lookupSeg m B.cluster = some lB) :
    segmentLabels.indexOf lA < segmentLabels.indexOf lB := by
  rcases S with _ | ⟨P0, _ | ⟨P1, _ | ⟨P2, _ | ⟨P3, S4⟩⟩⟩⟩
  · simp [buildSegmentMap] at hm
  · simp [buildSegmentMap] at hm
  · simp [buildSegmentMap] at hm
  · simp [buildSegmentMap] at hm
  · simp only [List.map_cons, buildSegmentMap, List.getElem?_cons_zero,
      List.getElem?_cons_succ, Option.some.injEq] at hm
    subst hm
    rw [List.pairwise_cons] at hsort
    have m01 : P1.mean_monetary ≤ P0.mean_monetary := hsort.1 P1 (by simp)
    have m02 : P2.mean_monetary ≤ P0.mean_monetary := hsort.1 P2 (by simp)
    have m03 : P3.mean_monetary ≤ P0.mean_monetary := hsort.1 P3 (by simp)
    have hsort1 := hsort.2
    rw [List.pairwise_cons] at hsort1
    have m12 : P2.mean_monetary ≤ P1.mean_monetary := hsort1.1 P2 (by simp)
    have m13 : P3.mean_monetary ≤ P1.mean_monetary := hsort1.1 P3 (by simp)
    have hsort2 := hsort1.2
    rw [List.pairwise_cons] at hsort2
    have m23 : P3.mean_monetary ≤ P2.mean_monetary := hsort2.1 P3 (by simp)
    have key : ∀ X : ClusterProfile, ∀ lX : String,
        X ∈ (P0 :: P1 :: P2 :: P3 :: S4 : List ClusterProfile) →
        lookupSeg [(P0.cluster, "Champions"), (P1.cluster, "Loyal"),
          (P2.cluster, "At Risk"), (P3.cluster, "Needs Attention")]
          X.cluster = some lX →
        (X = P0 ∧ lX = "Champions") ∨ (X = P1 ∧ lX = "Loyal") ∨
        (X = P2 ∧ lX = "At Risk") ∨ (X = P3 ∧ lX = "Needs Attention") := by
      intro X lX hX hlX
      by_cases e0 : P0.cluster = X.cluster
      · refine Or.inl ⟨(cluster_inj _ hnd hX (by simp) e0.symm), ?_⟩
        simp [lookupSeg, List.find?, e0] at hlX
        exact hlX.symm
      · by_cases e1 : P1.cluster = X.cluster
        · refine Or.inr (Or.inl ⟨(cluster_inj _ hnd hX (by simp) e1.symm), ?_⟩)
          simp [lookupSeg, List.find?, e0, e1] at hlX
          exact hlX.symm
        · by_cases e2 : P2.cluster = X.cluster
          · refine Or.inr (Or.inr (Or.inl
              ⟨(cluster_inj _ hnd hX (by simp) e2.symm), ?_⟩))
            simp [lookupSeg, List.find?, e0, e1, e2] at hlX
            exact hlX.symm
          · by_cases e3 : P3.cluster = X.cluster
            · refine Or.inr (Or.inr (Or.inr
                ⟨(cluster_inj _ hnd hX (by simp) e3.symm), ?_⟩))
              simp [lookupSeg, List.find?, e0, e1, e2, e3] at hlX
              exact hlX.symm
            · simp [lookupSeg, List.find?, e0, e1, e2, e3] at hlX
    have kA := key A lA hA hlA
    have kB := key B lB hB hlB
    rcases kA with ⟨rfl, rfl⟩ | ⟨rfl, rfl⟩ | ⟨rfl, rfl⟩ | ⟨rfl, rfl⟩ <;>
      rcases kB with ⟨rfl, rfl⟩ | ⟨rfl, rfl⟩ | ⟨rfl, rfl⟩ | ⟨rfl, rfl⟩
    · exact absurd hgt (lt_irrefl _)
    · decide
    · decide
    · decide
    · exact absurd hgt (not_lt.mpr m01)
    · exact absurd hgt (lt_irrefl _)
    · decide
    · decide
    · exact absurd hgt (not_lt.mpr m02)
    · exact absurd hgt (not_lt.mpr m12)
    · exact absurd hgt (lt_irrefl _)
    · decide
    · exact absurd hgt (not_lt.mpr m03)
    · exact absurd hgt (not_lt.mpr m13)
    · exact absurd hgt (not_lt.mpr m23)
    · exact absurd hgt (lt_irrefl _)

/-- C7. Segment-label monotonicity: for any two realized clusters of one
run, if cluster A has strictly greater mean monetary value than cluster B
and both receive segment labels, then A's label ranks strictly ahead of
B's in the configured label order (Champions, Loyal, At Risk,
Needs Attention). -/
theorem segment_label_monotone_in_mean_monetary (rows : List ClusteredRow)
    (A B : ClusterProfile) (m : List (Nat × String)) (lA lB : String)
    (hA : A ∈ clusterProfiles rows) (hB : B ∈ clusterProfiles rows)
    (hm : buildSegmentMap (orderedClusters (clusterProfiles rows)) = some m)
    (hgt : B.mean_monetary < A.mean_monetary)
    (hlA : lookupSeg m A.cluster = some lA)
    (hlB : lookupSeg m B.cluster = some lB) :
    segmentLabels.indexOf lA < segmentLabels.indexOf lB := by
  have hperm := sortProfilesDesc_perm (clusterProfiles rows)
  have hnd : ((sortProfilesDesc (clusterProfiles rows)).map
      (fun p => p.cluster)).Nodup := by
    have h₁ : ((sortProfilesDesc (clusterProfiles rows)).map
        (fun p => p.cluster)).Perm
        ((clusterProfiles rows).map (fun p => p.cluster)) := hperm.map _
    rw [h₁.nodup_iff, clusterProfiles_map_cluster]
    exact sortNat_nodup (List.nodup_dedup _)
  exact label_rank_lt (sortProfilesDesc (clusterProfiles rows))
    (sortProfilesDesc_sorted _) hnd A B (hperm.mem_iff.mpr hA)
    (hperm.mem_iff.mpr hB) hgt m lA lB hm hlA hlB

/-- A four-cluster table (one customer per cluster) for the C7 witness. -/
def labelWitnessRows : List ClusteredRow :=
  [{ customer_id := 1, recency := 1, frequency := 1, monetary := 40, cluster := 0 },
   { customer_id := 2, recency := 1, frequency := 1, monetary := 30, cluster := 1 },
   { customer_id := 3, recency := 1, frequency := 1, monetary := 20, cluster := 2 },
   { customer_id := 4, recency := 1, frequency := 1, monetary := 10, cluster := 3 }]

/-- The segment map the labeler builds on `labelWitnessRows`. -/
def labelWitnessMap : List (Nat × String) :=
  [(0, "Champions"), (1, "Loyal"), (2, "At Risk"), (3, "Needs Attention")]

/-- Profile of cluster 0 in `labelWitnessRows`. -/
def labelWitnessA : ClusterProfile :=
  { cluster := 0, mean_recency := 1, mean_frequency := 1, mean_monetary := 40,
    customer_count := 1 }

/-- Profile of cluster 1 in `labelWitnessRows`. -/
def labelWitnessB : ClusterProfile :=
  { cluster := 1, mean_recency := 1, mean_frequency := 1, mean_monetary := 30,
    customer_count := 1 }

lemma labelWitness_mem_A : labelWitnessA ∈ clusterProfiles labelWitnessRows := by
  norm_num [clusterProfiles, sortNat, insertNat, meanQ, labelWitnessRows,
    labelWitnessA, List.dedup]

lemma labelWitness_mem_B : labelWitnessB ∈ clusterProfiles labelWitnessRows := by
  norm_num [clusterProfiles, sortNat, insertNat, meanQ, labelWitnessRows,
    labelWitnessB, List.dedup]

lemma labelWitness_map :
    buildSegmentMap (orderedClusters (clusterProfiles labelWitnessRows)) =
      some labelWitnessMap := by
  norm_num [clusterProfiles, sortNat, insertNat, meanQ, labelWitnessRows,
    labelWitnessMap, List.dedup, orderedClusters, sortProfilesDesc,
    insertDesc, buildSegmentMap]

/-- Witness for C7 at the four-cluster table: cluster 0 (mean 40) outranks
cluster 1 (mean 30), and "Champions" indeed ranks ahead of "Loyal". -/
theorem segment_label_monotone_in_mean_monetary_witness :
    (labelWitnessA ∈ clusterProfiles labelWitnessRows ∧
     labelWitnessB ∈ clusterProfiles labelWitnessRows ∧
     buildSegmentMap (orderedClusters (clusterProfiles labelWitnessRows)) =
       some labelWitnessMap ∧
     labelWitnessB.mean_monetary < labelWitnessA.mean_monetary ∧
     lookupSeg labelWitnessMap labelWitnessA.cluster = some "Champions" ∧
     lookupSeg labelWitnessMap labelWitnessB.cluster = some "Loyal") ∧
    segmentLabels.indexOf "Champions" < segmentLabels.indexOf "Loyal" :=
  ⟨⟨labelWitness_mem_A, labelWitness_mem_B, labelWitness_map,
    by norm_num [labelWitnessA, labelWitnessB], by decide, by decide⟩,
   segment_label_monotone_in_mean_monetary labelWitnessRows labelWitnessA
     labelWitnessB labelWitnessMap "Champions" "Loyal" labelWitness_mem_A
     labelWitness_mem_B labelWitness_map
     (by norm_num [labelWitnessA, labelWitnessB]) (by decide) (by decide)⟩

/-- A two-customer positive-spend target group for the C10 witness. -/
def roiWitnessRows : List SegRow :=
  [{ customer_id := 1, recency := 1, frequency := 1, monetary := 5,
     cluster := 0, segment := some "Champions" },
   { customer_id := 2, recency := 1, frequency := 1, monetary := 15,
     cluster := 0, segment := some "Champions" }]

/-- The projection the simulator returns on `roiWitnessRows` at d = 1/4. -/
def roiWitnessProjection : CampaignProjection :=
  { target_segment := "Champions", targeted_customers := 2,
    projected_revenue := 23, campaign_cost := 23 / 4, net_profit := 69 / 4,
    projected_roi_percent := 300 }

lemma roiWitness_run :
    run_campaign_simulation roiWitnessRows "Champions" (1 / 4) =
      .ok roiWitnessProjection := by
  norm_num [run_campaign_simulation, roiWitnessRows, roiWitnessProjection]

/-- Witness for the amended C10 at d = 1/4 on a group with total spend 20:
the ROI is `((1 - 1/4) / (1/4)) * 100 = 300`. -/
theorem roi_depends_only_on_discount_witness :
    ((0 : ℚ) < 1 / 4 ∧ (1 / 4 : ℚ) < 1 ∧
     0 < ((roiWitnessRows.filter (fun r => r.segment = some "Champions")).map
       (fun r => r.monetary)).sum ∧
     run_campaign_simulation roiWitnessRows "Champions" (1 / 4) =
       .ok roiWitnessProjection) ∧
    roiWitnessProjection.projected_roi_percent = (1 - 1 / 4) / (1 / 4) * 100 :=
  ⟨⟨by norm_num, by norm_num, by norm_num [roiWitnessRows], roiWitness_run⟩,
   roi_depends_only_on_discount roiWitnessRows "Champions" (1 / 4)
     roiWitnessProjection (by norm_num) (by norm_num)
     (by norm_num [roiWitnessRows]) roiWitness_run⟩
